import Mathlib

/-!
Shallow embedding of the tarot-reading pipeline from
`advanced_llm_apps/chat-with-tarots` (files `helpers/qianwen_help_func.py`,
`helpers/qwen_langchain_improved.py`, `qianwen_app.py`), together with
theorems settling the specification claims about it.

Randomness (`random.sample`, `random.random()`) is made explicit: the
sampler takes an index oracle and the orientation draw takes a boolean
oracle, so every function is pure and executable.
-/

namespace Tarot

/-- A drawn-card record (`card_info` dict in `generate_random_draw`):
key `name` is always present; `is_reversed = none` models the
`'is_reversed'` key being absent from the dict. -/
structure DrawnCard where
  name : String
  is_reversed : Option Bool
deriving DecidableEq, Repr

/-- One value of the `card_meanings` dict built in `qianwen_app.py`:
`none` models the corresponding key being absent from the per-card dict. -/
structure CardMeaning where
  upright : Option String
  reversed : Option String
  symbolism : Option String
deriving DecidableEq, Repr

/-- The dict returned by `prepare_prompt_input`. -/
structure PromptInput where
  card_details : String
  context : String
  symbolism : String
deriving DecidableEq, Repr

/-! ## Draw Engine (`generate_random_draw`) -/

/-- Model of `random.sample(avail, k)`: draws `k` elements without
replacement. The randomness is the index oracle `picks`; each pick is
reduced modulo the number of remaining elements and that element is
removed before the next pick. -/
def randomSample (avail : List String) (k : Nat) (picks : List Nat) : List String :=
  match k with
  | 0 => []
  | k + 1 =>
    if avail = [] then []
    else
      let i := picks.headD 0 % avail.length
      avail.getD i "" :: randomSample (avail.eraseIdx i) k picks.tail

/-- The per-card loop of `generate_random_draw`: each selected name gets an
`is_reversed` flag drawn from the boolean oracle `revs` (one entry consumed
per card, modelling the successive `random.random() < 0.3` trials). -/
def assignOrientations : List String → List Bool → List DrawnCard
  | [], _ => []
  | c :: rest, revs =>
    { name := c, is_reversed := some (revs.headD false) } :: assignOrientations rest revs.tail

/-- The `ValueError` message raised when too many cards are requested. -/
def drawError (num_cards deck_size : Nat) : String :=
  "请求的牌数(" ++ toString num_cards ++ ")超过了可用牌数(" ++ toString deck_size ++ ")"

/-- `generate_random_draw(num_cards, available_cards)`; the `ValueError` is
an `Except.error`, and the two random streams are explicit oracles. -/
def generate_random_draw (num_cards : Nat) (available_cards : List String)
    (picks : List Nat) (revs : List Bool) : Except String (List DrawnCard) :=
  if num_cards > available_cards.length then
    .error (drawError num_cards available_cards.length)
  else
    .ok (assignOrientations (randomSample available_cards num_cards picks) revs)

theorem randomSample_length :
    ∀ (k : Nat) (avail : List String) (picks : List Nat), k ≤ avail.length →
      (randomSample avail k picks).length = k := by
  intro k
  induction k with
  | zero => intro avail picks _; simp [randomSample]
  | succ k ih =>
    intro avail picks h
    have hne : avail ≠ [] := by
      intro h0; rw [h0] at h; simp at h
    have hlen : 0 < avail.length := List.length_pos.mpr hne
    have hi : picks.headD 0 % avail.length < avail.length := Nat.mod_lt _ hlen
    have herase : (avail.eraseIdx (picks.headD 0 % avail.length)).length + 1 = avail.length :=
      List.length_eraseIdx_add_one hi
    simp only [randomSample, if_neg hne, List.length_cons]
    rw [ih _ picks.tail (by omega)]

theorem randomSample_subperm :
    ∀ (k : Nat) (avail : List String) (picks : List Nat),
      List.Subperm (randomSample avail k picks) avail := by
  intro k
  induction k with
  | zero => intro avail picks; simp [randomSample, List.nil_subperm]
  | succ k ih =>
    intro avail picks
    by_cases hne : avail = []
    · simp [randomSample, hne, List.nil_subperm]
    · have hlen : 0 < avail.length := List.length_pos.mpr hne
      have hi : picks.headD 0 % avail.length < avail.length := Nat.mod_lt _ hlen
      simp only [randomSample, if_neg hne]
      rw [List.getD_eq_getElem avail "" hi]
      have hperm : avail.Perm
          (avail[picks.headD 0 % avail.length] ::
            avail.eraseIdx (picks.headD 0 % avail.length)) :=
        (List.perm_cons_erase (avail.getElem_mem hi)).trans
          ((List.erase_getElem hi).cons _)
      exact ((List.subperm_cons _).mpr
        (ih (avail.eraseIdx (picks.headD 0 % avail.length)) picks.tail)).trans
        hperm.symm.subperm

theorem randomSample_nodup (k : Nat) (avail : List String) (picks : List Nat)
    (hnd : avail.Nodup) : (randomSample avail k picks).Nodup := by
  obtain ⟨l, hp, hs⟩ := randomSample_subperm k avail picks
  exact hp.nodup (hs.nodup hnd)

theorem assignOrientations_map_name (sel : List String) :
    ∀ revs : List Bool, (assignOrientations sel revs).map DrawnCard.name = sel := by
  induction sel with
  | nil => intro revs; simp [assignOrientations]
  | cons c rest ih => intro revs; simp [assignOrientations, ih]

theorem assignOrientations_isSome (sel : List String) :
    ∀ (revs : List Bool) (c : DrawnCard),
      c ∈ assignOrientations sel revs → c.is_reversed.isSome := by
  induction sel with
  | nil => intro revs c hc; simp [assignOrientations] at hc
  | cons x rest ih =>
    intro revs c hc
    simp only [assignOrientations, List.mem_cons] at hc
    rcases hc with hc | hc
    · simp [hc]
    · exact ih revs.tail c hc

/-! ## Meaning Resolver (`prepare_prompt_input`) -/

/-- Model of Python `sep.join(xs)`. -/
def strJoin (sep : String) : List String → String
  | [] => ""
  | [x] => x
  | x :: xs => x ++ sep ++ strJoin sep (xs)

/-- The loop body of `prepare_prompt_input` for one `card_info`: returns the
pair (entry appended to `card_details_list`, entry appended to
`symbolism_list`). `lookup` models the `card_name in card_meanings` test
plus the indexing, and `Option.getD` models `dict.get(key, default)`. -/
def resolveCard (card_meanings : List (String × CardMeaning)) (card_info : DrawnCard) :
    String × String :=
  let card_name := card_info.name
  let is_rev := card_info.is_reversed.getD false
  match card_meanings.lookup card_name with
  | some meaning_data =>
    let meaning := if is_rev then meaning_data.reversed.getD "逆位含义未知"
                   else meaning_data.upright.getD "正位含义未知"
    let position := if is_rev then "逆位" else "正位"
    let symbolism := meaning_data.symbolism.getD "象征意义未知"
    ("**" ++ card_name ++ "** (" ++ position ++ "): " ++ meaning,
     "**" ++ card_name ++ "**: " ++ symbolism)
  | none =>
    let position := if is_rev then "逆位" else "正位"
    ("**" ++ card_name ++ "** (" ++ position ++ "): 含义待解读",
     "**" ++ card_name ++ "**: 象征意义待解读")

/-- `prepare_prompt_input(input_data, card_meanings)` where `input_data` is
the dict with keys `cards` and `context`. -/
def prepare_prompt_input (cards : List DrawnCard) (context : String)
    (card_meanings : List (String × CardMeaning)) : PromptInput :=
  { card_details := strJoin "\n" (cards.map fun c => (resolveCard card_meanings c).1)
  , context := context
  , symbolism := strJoin "\n" (cards.map fun c => (resolveCard card_meanings c).2) }

/-! ## Prompt Builder (`system_message_template`, `prompt_analysis`, the
message-building stage of `analyzer` in `qianwen_app.py`) -/

/-- LangChain message objects used by the app. -/
inductive LCMessage where
  | system (content : String)
  | human (content : String)
  | ai (content : String)
deriving DecidableEq, Repr

/-- Literal text of `system_message_template` before `{card_details}`. -/
def sysSeg0 : String :=
  "\n你是一位神秘的塔罗牌解读师，拥有深厚的象征学和心理学知识。\n请基于提供的含义分析以下塔罗牌（同时考虑它们是否为逆位）：\n"

/-- Literal text between `{card_details}` and `{context}`. -/
def sysSeg1 : String :=
  "\n请特别注意以下几个方面：\n- 详细分析每张牌的含义（正位或逆位）。\n- 然后根据卡牌提供一个与上下文相关的总体解释："

/-- Literal text between `{context}` and `{symbolism}`. -/
def sysSeg2 : String := "。\n- 保持神秘，并基于特定列 "

/-- Literal text after `{symbolism}`. -/
def sysSeg3 : String :=
  " 提供与卡牌象征意义相关的解释信息。\n- 在解读结束时，总是提供改善或处理当前情况的建议。建议也请基于你的心理学知识。\n"

/-- The full `system_message_template` string of `qianwen_app.py`. -/
def system_message_template : String :=
  sysSeg0 ++ "{card_details}" ++ sysSeg1 ++ "{context}" ++ sysSeg2 ++ "{symbolism}" ++ sysSeg3

/-- Python `system_message_template.format(**x)`: each of the three
placeholders occurs exactly once in the template, so formatting is exactly
this concatenation of the literal segments with the field values. -/
def formatSystemMessage (x : PromptInput) : String :=
  sysSeg0 ++ x.card_details ++ sysSeg1 ++ x.context ++ sysSeg2 ++ x.symbolism ++ sysSeg3

/-- `prompt_analysis = PromptTemplate.from_template("{context}")`:
formatting that template with `context=ctx` returns `ctx` itself. -/
def prompt_analysis_format (context : String) : String := context

/-- The message-building stage of the `analyzer` chain: a two-message
request `[SystemMessage(...), HumanMessage(...)]`. -/
def buildMessages (x : PromptInput) : List LCMessage :=
  [LCMessage.system (formatSystemMessage x),
   LCMessage.human (prompt_analysis_format x.context)]

/-! ## LLM Client (`QwenLLMImproved`, `FallbackLLM`, app-level try/except) -/

/-- `FallbackLLM` from `qianwen_help_func.py`. -/
structure FallbackLLM where
  error_message : String
deriving DecidableEq, Repr

/-- `FallbackLLM.invoke`: ignores the messages and always returns the fixed
apology embedding the stored error message. -/
def FallbackLLM.invoke (self : FallbackLLM) (_messages : List LCMessage) : String :=
  "抱歉，AI模型暂时不可用：" ++ self.error_message ++ "。请稍后重试或检查配置。"

/-- A successfully constructed `QwenLLMImproved` (configuration fields that
no claim depends on are omitted). -/
structure QwenLLMImproved where
  api_key : String
  model : String
deriving DecidableEq, Repr

/-- The `ValueError` message of `QwenLLMImproved.__init__`. -/
def qwenInitError : String :=
  "通义千问API密钥未配置，请提供api_key参数或设置DASHSCOPE_API_KEY环境变量"

/-- `QwenLLMImproved.__init__`: `self.api_key = api_key or os.getenv(...)`
followed by the falsy check raising `ValueError`. `none` models Python
`None`; the empty string is the other falsy value in play. -/
def QwenLLMImproved.construct (api_key env_key : Option String) (model : String) :
    Except String QwenLLMImproved :=
  let key : Option String :=
    match api_key with
    | some s => if s = "" then env_key else some s
    | none => env_key
  match key with
  | some s => if s = "" then .error qwenInitError else .ok { api_key := s, model := model }
  | none => .error qwenInitError

/-- The `ValueError` message raised by `qianwen_app.py` when
`DASHSCOPE_API_KEY` is unset. -/
def appKeyError : String := "通义千问API密钥未配置，请确保.env文件中包含DASHSCOPE_API_KEY"

/-- The `llm` object held by the app: either the live client or the
fallback responder. -/
inductive AppLLM where
  | qwen (llm : QwenLLMImproved)
  | fallback (llm : FallbackLLM)
deriving DecidableEq, Repr

/-- The try/except at the top of `qianwen_app.py`: read
`DASHSCOPE_API_KEY`, raise `ValueError` if falsy, otherwise construct
`QwenLLMImproved`; on any exception substitute `FallbackLLM(str(e))`. -/
def buildAppLLM (env_key : Option String) : AppLLM :=
  let attempt : Except String QwenLLMImproved :=
    match env_key with
    | none => .error appKeyError
    | some s =>
      if s = "" then .error appKeyError
      else QwenLLMImproved.construct (some s) env_key "qwen-plus"
  match attempt with
  | .ok q => .qwen q
  | .error e => .fallback { error_message := e }

/-- The `output` field of a dashscope response; `choices` is `none` when
the key `'choices'` is absent, otherwise the list of
`choices[i]['message']['content']` strings. -/
structure QwenOutput where
  choices : Option (List String)
deriving DecidableEq, Repr

/-- A dashscope `Generation.call` response: `output = none` models the key
`'output'` being absent; `message` models `response.get('message', ...)`. -/
structure QwenResponse where
  status_code : Nat
  output : Option QwenOutput
  message : Option String
deriving DecidableEq, Repr

/-- Outcome of the remote call inside `_generate`'s try block: either a
response object or a raised exception with its string rendering. -/
inductive CallOutcome where
  | ok (response : QwenResponse)
  | exn (e : String)
deriving DecidableEq, Repr

/-- LangChain `Generation`. -/
structure Generation where
  text : String
deriving DecidableEq, Repr

/-- LangChain `LLMResult`. -/
structure LLMResult where
  generations : List (List Generation)
deriving DecidableEq, Repr

/-- The error text built in `_generate`'s non-success branch. -/
def apiFailText (r : QwenResponse) : String :=
  "API调用失败: HTTP状态码 " ++ toString r.status_code ++ ", 错误信息: " ++
    r.message.getD "未知错误"

/-- `QwenLLMImproved._generate`, with the dashscope call's outcome passed
in explicitly. On success with a well-formed body it returns the first
choice's content; accessing `choices[0]` of an empty list raises
`IndexError`, caught by the enclosing `except` as
`"API调用异常: list index out of range"`. -/
def qwenGenerate (outcome : CallOutcome) : LLMResult :=
  match outcome with
  | .exn e => { generations := [[{ text := "API调用异常: " ++ e }]] }
  | .ok r =>
    match r.output with
    | some o =>
      match o.choices with
      | some cs =>
        if r.status_code = 200 then
          match cs.head? with
          | some content => { generations := [[{ text := content }]] }
          | none => { generations := [[{ text := "API调用异常: list index out of range" }]] }
        else { generations := [[{ text := apiFailText r }]] }
      | none => { generations := [[{ text := apiFailText r }]] }
    | none => { generations := [[{ text := apiFailText r }]] }

/-! ## Presentation layer (caption logic in `qianwen_app.py`) -/

/-- `reversed_label = "(R)" if 'is_reversed' in card_info else ""`:
the marker is gated on the key being PRESENT, not on its boolean value. -/
def reversed_label (card_info : DrawnCard) : String :=
  if card_info.is_reversed.isSome then "(R)" else ""

/-- `caption = f"..."` for one drawn card. -/
def caption (card_info : DrawnCard) : String :=
  card_info.name ++ " " ++ reversed_label card_info

/-! ## Substring machinery -/

/-- `needle` occurs verbatim inside `haystack`. -/
def isSubstring (needle haystack : String) : Prop :=
  ∃ pre post : String, haystack = pre ++ needle ++ post

/-- Executable substring check (for concrete counterexamples). -/
def strContainsSub (needle hay : String) : Bool :=
  hay.data.tails.any fun t => needle.data.isPrefixOf t

theorem strAppend_assoc (a b c : String) : a ++ b ++ c = a ++ (b ++ c) := by
  apply String.ext
  simp

theorem strMerge (a b c s : String) (h : a ++ b = c) : a ++ (b ++ s) = c ++ s := by
  rw [← strAppend_assoc, h]

theorem upright_line_merge (name m : String) :
    "**" ++ name ++ "** (" ++ "正位" ++ "): " ++ m = "**" ++ name ++ "** (正位): " ++ m := by
  simp only [strAppend_assoc]
  congr 1

theorem isSubstring_of_append (needle s a b : String) (h : isSubstring needle s) :
    isSubstring needle (a ++ s ++ b) := by
  obtain ⟨pre, post, rfl⟩ := h
  exact ⟨a ++ pre, post ++ b, by simp [strAppend_assoc]⟩

theorem strJoin_isSubstring (sep : String) :
    ∀ (l : List String) (x : String), x ∈ l → isSubstring x (strJoin sep l) := by
  intro l
  induction l with
  | nil => intro x hx; simp at hx
  | cons a rest ih =>
    intro x hx
    match rest with
    | [] =>
      simp at hx
      exact ⟨"", "", by simp [strJoin, hx]⟩
    | b :: t =>
      rcases List.mem_cons.mp hx with hx | hx
      · exact ⟨"", sep ++ strJoin sep (b :: t), by simp [strJoin, hx, strAppend_assoc]⟩
      · obtain ⟨pre, post, hpp⟩ := ih x hx
        exact ⟨a ++ sep ++ pre, post, by simp [strJoin, hpp, strAppend_assoc]⟩

/-- C1: with `n ≤ |D|` and `D` duplicate-free, the draw succeeds and returns
exactly `n` cards with pairwise-distinct names, all taken from `D`. -/
theorem generate_random_draw_ok (n : Nat) (D : List String)
    (picks : List Nat) (revs : List Bool)
    (_hpos : 0 < n) (hle : n ≤ D.length) (hnd : D.Nodup) :
    ∃ l, generate_random_draw n D picks revs = .ok l ∧
      l.length = n ∧ (l.map DrawnCard.name).Nodup ∧ ∀ c ∈ l, c.name ∈ D := by
  refine ⟨assignOrientations (randomSample D n picks) revs, ?_, ?_, ?_, ?_⟩
  · simp [generate_random_draw, Nat.not_lt.mpr hle]
  · have := congrArg List.length (assignOrientations_map_name (randomSample D n picks) revs)
    simp only [List.length_map] at this
    rw [this, randomSample_length n D picks hle]
  · rw [assignOrientations_map_name]
    exact randomSample_nodup n D picks hnd
  · intro c hc
    have : c.name ∈ (assignOrientations (randomSample D n picks) revs).map DrawnCard.name :=
      List.mem_map_of_mem _ hc
    rw [assignOrientations_map_name] at this
    exact (randomSample_subperm n D picks).subset this

theorem generate_random_draw_ok_witness :
    0 < 2 ∧ 2 ≤ (["A", "B", "C"] : List String).length ∧
      (["A", "B", "C"] : List String).Nodup ∧
    ∃ l, generate_random_draw 2 ["A", "B", "C"] [4, 0] [true, false] = .ok l ∧
      l.length = 2 ∧ (l.map DrawnCard.name).Nodup ∧
      ∀ c ∈ l, c.name ∈ (["A", "B", "C"] : List String) :=
  ⟨by decide, by decide, by decide,
    generate_random_draw_ok 2 ["A", "B", "C"] [4, 0] [true, false]
      (by decide) (by decide) (by decide)⟩

/-- C2: when more cards are requested than exist, `generate_random_draw`
raises the `ValueError` (modelled as `Except.error`) and returns no cards;
being pure, it changes no state. -/
theorem generate_random_draw_insufficient (n : Nat) (D : List String)
    (picks : List Nat) (revs : List Bool) (h : n > D.length) :
    generate_random_draw n D picks revs = .error (drawError n D.length) := by
  simp [generate_random_draw, h]

theorem generate_random_draw_insufficient_witness :
    2 > (["Fool"] : List String).length ∧
    generate_random_draw 2 ["Fool"] [] [] = .error (drawError 2 1) :=
  ⟨by decide, generate_random_draw_insufficient 2 ["Fool"] [] [] (by decide)⟩

/-! ## Concrete decks used in scenarios -/

def foolDeck : List (String × CardMeaning) :=
  [("Fool", { upright := some "new beginnings", reversed := some "recklessness",
              symbolism := some "innocence" })]

def emptyUprightDeck : List (String × CardMeaning) :=
  [("Fool", { upright := some "", reversed := some "recklessness",
              symbolism := some "innocence" })]

def missingReversedDeck : List (String × CardMeaning) :=
  [("X", { upright := some "u", reversed := none, symbolism := some "" })]

/-- C3 counterexample: on the spec's own scenario the code emits the
localized orientation label `正位`, so `card_details` is NOT the claimed
string `"**Fool** (upright): new beginnings"`. -/
theorem fool_upright_label_counterexample :
    (prepare_prompt_input [{ name := "Fool", is_reversed := some false }] "q"
        foolDeck).card_details = "**Fool** (正位): new beginnings" ∧
    (prepare_prompt_input [{ name := "Fool", is_reversed := some false }] "q"
        foolDeck).card_details ≠ "**Fool** (upright): new beginnings" := by
  constructor
  · decide
  · decide

/-- C3 (amended): for a drawn card present in the deck and forced upright,
the details line is `"**{name}** (正位): {upright meaning}"` (`正位` being
the localized upright label); on the Fool scenario this gives
`"**Fool** (正位): new beginnings"`. -/
theorem prepare_prompt_input_detail_line (cm : List (String × CardMeaning))
    (c : DrawnCard) (ctx : String) (md : CardMeaning) (m : String)
    (hlk : cm.lookup c.name = some md) (hrev : c.is_reversed = some false)
    (hup : md.upright = some m) :
    (prepare_prompt_input [c] ctx cm).card_details =
      "**" ++ c.name ++ "** (正位): " ++ m := by
  simp only [prepare_prompt_input, resolveCard, hlk, hrev, hup, List.map, strJoin,
    Option.getD_some]
  exact upright_line_merge c.name m

theorem prepare_prompt_input_detail_line_witness :
    (prepare_prompt_input [{ name := "Fool", is_reversed := some false }] "q"
        foolDeck).card_details = "**Fool** (正位): new beginnings" :=
  prepare_prompt_input_detail_line foolDeck
    { name := "Fool", is_reversed := some false } "q"
    { upright := some "new beginnings", reversed := some "recklessness",
      symbolism := some "innocence" } "new beginnings"
    (by decide) (by decide) (by decide)

/-- C4 counterexample: the upright text is present but EMPTY, and the
resolver keeps the empty text instead of substituting the placeholder
`正位含义未知`; `dict.get` only defaults on a missing key. -/
theorem empty_meaning_no_placeholder_counterexample :
    (prepare_prompt_input [{ name := "Fool", is_reversed := some false }] "q"
        emptyUprightDeck).card_details = "**Fool** (正位): " ∧
    (prepare_prompt_input [{ name := "Fool", is_reversed := some false }] "q"
        emptyUprightDeck).card_details ≠ "**Fool** (正位): 正位含义未知" := by
  constructor
  · decide
  · decide

/-- C4 (amended): the resolver selects the reversed text when
`is_reversed` is true and the upright text otherwise, substituting the
fixed placeholders (`逆位含义未知` / `正位含义未知` / `象征意义未知`) exactly
when the corresponding key is MISSING; a present-but-empty text is kept
as-is. -/
theorem resolveCard_selection (cm : List (String × CardMeaning)) (c : DrawnCard)
    (ctx : String) (md : CardMeaning) (hlk : cm.lookup c.name = some md) :
    (prepare_prompt_input [c] ctx cm).card_details =
      "**" ++ c.name ++ "** (" ++
        (if c.is_reversed.getD false then "逆位" else "正位") ++ "): " ++
        (if c.is_reversed.getD false then md.reversed.getD "逆位含义未知"
         else md.upright.getD "正位含义未知") ∧
    (prepare_prompt_input [c] ctx cm).symbolism =
      "**" ++ c.name ++ "**: " ++ md.symbolism.getD "象征意义未知" := by
  by_cases hrev : c.is_reversed.getD false <;>
    simp [prepare_prompt_input, resolveCard, hlk, hrev, strJoin]

theorem resolveCard_selection_witness :
    (prepare_prompt_input [{ name := "X", is_reversed := some true }] "q"
        missingReversedDeck).card_details = "**X** (逆位): 逆位含义未知" ∧
    (prepare_prompt_input [{ name := "X", is_reversed := some true }] "q"
        missingReversedDeck).symbolism = "**X**: " :=
  resolveCard_selection missingReversedDeck
    { name := "X", is_reversed := some true } "q"
    { upright := some "u", reversed := none, symbolism := some "" } (by decide)

/-- C5: a drawn card whose name is absent from the deck resolves to the
fixed pending placeholders (`含义待解读`, `象征意义待解读`); the resolver is a
total function, so no exception is possible and there is no error branch
for this case. -/
theorem prepare_prompt_input_absent_card (cm : List (String × CardMeaning))
    (c : DrawnCard) (ctx : String) (h : cm.lookup c.name = none) :
    resolveCard cm c =
      ("**" ++ c.name ++ "** (" ++
         (if c.is_reversed.getD false then "逆位" else "正位") ++ "): 含义待解读",
       "**" ++ c.name ++ "**: 象征意义待解读") ∧
    prepare_prompt_input [c] ctx cm =
      { card_details := "**" ++ c.name ++ "** (" ++
          (if c.is_reversed.getD false then "逆位" else "正位") ++ "): 含义待解读",
        context := ctx,
        symbolism := "**" ++ c.name ++ "**: 象征意义待解读" } := by
  by_cases hrev : c.is_reversed.getD false <;>
    simp [prepare_prompt_input, resolveCard, h, hrev, strJoin]

theorem prepare_prompt_input_absent_card_witness :
    resolveCard foolDeck { name := "Ghost", is_reversed := some true } =
      ("**Ghost** (逆位): 含义待解读", "**Ghost**: 象征意义待解读") ∧
    prepare_prompt_input [{ name := "Ghost", is_reversed := some true }] "q" foolDeck =
      { card_details := "**Ghost** (逆位): 含义待解读",
        context := "q",
        symbolism := "**Ghost**: 象征意义待解读" } :=
  prepare_prompt_input_absent_card foolDeck
    { name := "Ghost", is_reversed := some true } "q" (by decide)

/-- C6: the chain builds a two-message request whose system message
contains, verbatim as substrings, every details line and every symbolism
line produced by the resolver, and whose user message is exactly the
context string. -/
theorem buildMessages_two_messages (cards : List DrawnCard) (ctx : String)
    (cm : List (String × CardMeaning)) :
    ∃ sys_text : String,
      buildMessages (prepare_prompt_input cards ctx cm) =
        [LCMessage.system sys_text, LCMessage.human ctx] ∧
      (∀ line ∈ cards.map fun c => (resolveCard cm c).1, isSubstring line sys_text) ∧
      (∀ line ∈ cards.map fun c => (resolveCard cm c).2, isSubstring line sys_text) := by
  refine ⟨formatSystemMessage (prepare_prompt_input cards ctx cm), rfl, ?_, ?_⟩
  · intro line hline
    have h1 := strJoin_isSubstring "\n" (cards.map fun c => (resolveCard cm c).1) line hline
    have heq : formatSystemMessage (prepare_prompt_input cards ctx cm) =
        sysSeg0 ++ strJoin "\n" (cards.map fun c => (resolveCard cm c).1) ++
          (sysSeg1 ++ ctx ++ sysSeg2 ++
            strJoin "\n" (cards.map fun c => (resolveCard cm c).2) ++ sysSeg3) := by
      simp [formatSystemMessage, prepare_prompt_input, strAppend_assoc]
    rw [heq]
    exact isSubstring_of_append _ _ _ _ h1
  · intro line hline
    have h1 := strJoin_isSubstring "\n" (cards.map fun c => (resolveCard cm c).2) line hline
    have heq : formatSystemMessage (prepare_prompt_input cards ctx cm) =
        (sysSeg0 ++ strJoin "\n" (cards.map fun c => (resolveCard cm c).1) ++
          sysSeg1 ++ ctx ++ sysSeg2) ++
          strJoin "\n" (cards.map fun c => (resolveCard cm c).2) ++ sysSeg3 := by
      simp [formatSystemMessage, prepare_prompt_input, strAppend_assoc]
    rw [heq]
    exact isSubstring_of_append _ _ _ _ h1

theorem buildMessages_two_messages_witness :
    ∃ sys_text : String,
      buildMessages (prepare_prompt_input
          [{ name := "Fool", is_reversed := some false }] "why" foolDeck) =
        [LCMessage.system sys_text, LCMessage.human "why"] ∧
      (∀ line ∈ ([{ name := "Fool", is_reversed := some false }] : List DrawnCard).map
          fun c => (resolveCard foolDeck c).1, isSubstring line sys_text) ∧
      (∀ line ∈ ([{ name := "Fool", is_reversed := some false }] : List DrawnCard).map
          fun c => (resolveCard foolDeck c).2, isSubstring line sys_text) :=
  buildMessages_two_messages [{ name := "Fool", is_reversed := some false }] "why" foolDeck

/-- C7: with a missing or empty API key the client constructor raises the
configuration `ValueError`; the app catches it and substitutes
`FallbackLLM`, whose `invoke` returns, on every call (hence on any two
consecutive calls, with identical results), the fixed apology containing
the original configuration error string. -/
theorem fallback_on_missing_key (env_key : Option String)
    (h : env_key = none ∨ env_key = some "") :
    QwenLLMImproved.construct env_key env_key "qwen-plus" = .error qwenInitError ∧
    buildAppLLM env_key = .fallback { error_message := appKeyError } ∧
    ∀ msgs₁ msgs₂ : List LCMessage,
      FallbackLLM.invoke { error_message := appKeyError } msgs₁ =
        "抱歉，AI模型暂时不可用：" ++ appKeyError ++ "。请稍后重试或检查配置。" ∧
      FallbackLLM.invoke { error_message := appKeyError } msgs₁ =
        FallbackLLM.invoke { error_message := appKeyError } msgs₂ ∧
      isSubstring appKeyError (FallbackLLM.invoke { error_message := appKeyError } msgs₁) := by
  rcases h with rfl | rfl <;>
    exact ⟨rfl, rfl, fun _ _ =>
      ⟨rfl, rfl, ⟨"抱歉，AI模型暂时不可用：", "。请稍后重试或检查配置。", rfl⟩⟩⟩

theorem fallback_on_missing_key_witness :
    ((some "" : Option String) = none ∨ (some "" : Option String) = some "") ∧
    (QwenLLMImproved.construct (some "") (some "") "qwen-plus" = .error qwenInitError ∧
     buildAppLLM (some "") = .fallback { error_message := appKeyError } ∧
     ∀ msgs₁ msgs₂ : List LCMessage,
       FallbackLLM.invoke { error_message := appKeyError } msgs₁ =
         "抱歉，AI模型暂时不可用：" ++ appKeyError ++ "。请稍后重试或检查配置。" ∧
       FallbackLLM.invoke { error_message := appKeyError } msgs₁ =
         FallbackLLM.invoke { error_message := appKeyError } msgs₂ ∧
       isSubstring appKeyError (FallbackLLM.invoke { error_message := appKeyError } msgs₁)) :=
  ⟨Or.inr rfl, fallback_on_missing_key (some "") (Or.inr rfl)⟩

/-- C8 counterexample: when the call raises an exception, the surfaced
text is `"API调用异常: ..."`, which contains neither the `API调用失败`
marker nor any status detail, so the claim as stated fails on the
exception case. -/
theorem qwenGenerate_exception_counterexample :
    qwenGenerate (.exn "Connection timed out") =
      { generations := [[{ text := "API调用异常: Connection timed out" }]] } ∧
    strContainsSub "API调用失败" "API调用异常: Connection timed out" = false ∧
    strContainsSub "API call failed" "API调用异常: Connection timed out" = false :=
  ⟨rfl, by decide, by decide⟩

/-- C8 (amended): on a non-success status or a malformed body,
`_generate` returns (never raises) a result whose text is the
`API调用失败` message carrying the HTTP status detail; on an exception it
returns the `API调用异常` text (no status detail). -/
theorem qwenGenerate_failure (r : QwenResponse) (e : String)
    (hfail : r.status_code ≠ 200 ∨ r.output = none ∨
      ∃ o, r.output = some o ∧ o.choices = none) :
    qwenGenerate (.ok r) = { generations := [[{ text := apiFailText r }]] } ∧
    isSubstring "API调用失败" (apiFailText r) ∧
    isSubstring (toString r.status_code) (apiFailText r) ∧
    qwenGenerate (.exn e) = { generations := [[{ text := "API调用异常: " ++ e }]] } := by
  refine ⟨?_, ?_, ?_, rfl⟩
  · rcases hfail with h | h | ⟨o, ho, hc⟩
    · cases hr : r.output with
      | none => simp [qwenGenerate, hr]
      | some o =>
        cases hc : o.choices with
        | none => simp [qwenGenerate, hr, hc]
        | some cs => simp [qwenGenerate, hr, hc, h]
    · simp [qwenGenerate, h]
    · simp [qwenGenerate, ho, hc]
  · refine ⟨"", ": HTTP状态码 " ++ (toString r.status_code ++
      (", 错误信息: " ++ r.message.getD "未知错误")), ?_⟩
    rw [String.empty_append]
    unfold apiFailText
    simp only [strAppend_assoc]
    exact (strMerge "API调用失败" ": HTTP状态码 " "API调用失败: HTTP状态码 "
      (toString r.status_code ++ (", 错误信息: " ++ r.message.getD "未知错误"))
      (by decide)).symm
  · exact ⟨"API调用失败: HTTP状态码 ", ", 错误信息: " ++ r.message.getD "未知错误",
      by simp [apiFailText, strAppend_assoc]⟩

def resp500 : QwenResponse :=
  { status_code := 500, output := none, message := some "Internal Server Error" }

theorem qwenGenerate_failure_witness :
    (resp500.status_code ≠ 200 ∨ resp500.output = none ∨
      ∃ o, resp500.output = some o ∧ o.choices = none) ∧
    (qwenGenerate (.ok resp500) = { generations := [[{ text := apiFailText resp500 }]] } ∧
     isSubstring "API调用失败" (apiFailText resp500) ∧
     isSubstring (toString resp500.status_code) (apiFailText resp500) ∧
     qwenGenerate (.exn "boom") =
       { generations := [[{ text := "API调用异常: " ++ "boom" }]] }) :=
  ⟨Or.inl (by decide), qwenGenerate_failure resp500 "boom" (Or.inl (by decide))⟩

/-- C9: the caption logic shows the "(R)" marker whenever the
`'is_reversed'` key is present, so an upright card (value `false`) is
still rendered with "(R)" — contradicting the intended gate on the
boolean value that the spec assumes. -/
theorem reversed_label_key_presence_bug :
    reversed_label { name := "00-thefool.jpg", is_reversed := some false } = "(R)" ∧
    ({ name := "00-thefool.jpg", is_reversed := some false } : DrawnCard).is_reversed.getD false
      = false ∧
    caption { name := "00-thefool.jpg", is_reversed := some false } = "00-thefool.jpg (R)" := by
  refine ⟨rfl, rfl, by decide⟩

/-- C10: a drawn-card record lacking the `is_reversed` key is handled
exactly like an upright card (`dict.get` defaults to `False`): same
resolver output, upright label and upright meaning, no exception. -/
theorem prepare_prompt_input_missing_orientation (cm : List (String × CardMeaning))
    (c : DrawnCard) (ctx : String) (h : c.is_reversed = none) :
    prepare_prompt_input [c] ctx cm =
      prepare_prompt_input [{ name := c.name, is_reversed := some false }] ctx cm ∧
    ∀ md, cm.lookup c.name = some md →
      (prepare_prompt_input [c] ctx cm).card_details =
        "**" ++ c.name ++ "** (正位): " ++ md.upright.getD "正位含义未知" := by
  constructor
  · simp [prepare_prompt_input, resolveCard, h]
  · intro md hmd
    simp only [prepare_prompt_input, resolveCard, h, hmd, List.map, strJoin,
      Option.getD_none]
    exact upright_line_merge c.name (md.upright.getD "正位含义未知")

theorem prepare_prompt_input_missing_orientation_witness :
    ({ name := "Fool", is_reversed := none } : DrawnCard).is_reversed = none ∧
    (prepare_prompt_input [{ name := "Fool", is_reversed := none }] "q" foolDeck =
       prepare_prompt_input [{ name := "Fool", is_reversed := some false }] "q" foolDeck ∧
     ∀ md, foolDeck.lookup "Fool" = some md →
       (prepare_prompt_input [{ name := "Fool", is_reversed := none }] "q" foolDeck).card_details =
         "**" ++ "Fool" ++ "** (正位): " ++ md.upright.getD "正位含义未知") :=
  ⟨rfl, prepare_prompt_input_missing_orientation foolDeck
    { name := "Fool", is_reversed := none } "q" rfl⟩

end Tarot
